import Mathlib

/-!
Verification of the solar pool-heater control program (pool_heater-mk3.ino).

The program is a finite-state control engine driven once per Arduino loop
iteration.  Seven states, six events, ten registered transitions.  The
decision states (check_pool, check_coil, check_primed) raise an event from
their entry callback; the dwell states (wait, heat, small_heat, pump) leave
only through a timed transition.  The pump state's entry/exit callbacks set
and clear the pump and LED outputs, and the dwell states write a 7-character
status label into an 8-byte buffer.
-/

namespace PoolHeater

/-- The seven FSM states declared in the sketch (check_pool_state, wait_state,
heat_state, small_heat_state, check_coil_state, check_primed_state,
pump_state). -/
inductive StateId where
  | check_pool
  | wait
  | heat
  | small_heat
  | check_coil
  | check_primed
  | pump
  deriving DecidableEq, Fintype, Repr

/-- The six FSM events (preprocessor constants 0..5 in the sketch). -/
inductive Event where
  | POOL_NOT_HEATED
  | POOL_HEATED
  | COIL_NOT_PRIMED
  | COIL_PRIMED
  | COIL_NOT_READY
  | COIL_READY
  deriving DecidableEq, Fintype, Repr

/-- The two buzzer callbacks makeGoodBeep and makeBadBeep. -/
inductive Beep where
  | good
  | bad
  deriving DecidableEq, Fintype, Repr

/-- The notification taxonomy of the spec: NONE, SUCCESS, FAILURE. -/
inductive Notif where
  | none
  | success
  | failure
  deriving DecidableEq, Fintype, Repr

/-- The notification a fired transition produces: the good-beep callback is the
success chime, the bad-beep callback the failure chime. -/
def beepNotif : Beep → Notif
  | Beep.good => Notif.success
  | Beep.bad => Notif.failure

/-- Modelled from the spec: triggers of the Fsm library (Fsm.h, not part of the
repository sources) are either an event or an elapsed-time threshold in
milliseconds. -/
inductive Trigger where
  | onEvent (e : Event)
  | timedMs (ms : Nat)
  deriving DecidableEq, Repr

/-- Whether a trigger is time-driven. -/
def Trigger.isTimed : Trigger → Bool
  | Trigger.timedMs _ => true
  | Trigger.onEvent _ => false

/-- Whether a trigger is event-driven. -/
def Trigger.isEventDriven : Trigger → Bool
  | Trigger.timedMs _ => false
  | Trigger.onEvent _ => true

/-- Modelled from the spec: a transition record of the Fsm library (Fsm.h is
not in the repository sources): source state, target state, trigger, and the
optional callback fired on transition (here only the beep callbacks occur). -/
structure Transition where
  fromState : StateId
  toState : StateId
  trig : Trigger
  onFire : Option Beep
  deriving DecidableEq, Repr

/-- The ten transitions registered in setup(), in registration order, with the
active (non-commented) interval values of the sketch. -/
def transitions : List Transition :=
  [ ⟨StateId.check_pool, StateId.wait, Trigger.onEvent Event.POOL_HEATED, some Beep.good⟩,
    ⟨StateId.wait, StateId.check_pool, Trigger.timedMs 6000, Option.none⟩,
    ⟨StateId.check_pool, StateId.heat, Trigger.onEvent Event.POOL_NOT_HEATED, some Beep.good⟩,
    ⟨StateId.heat, StateId.check_coil, Trigger.timedMs 12000, some Beep.good⟩,
    ⟨StateId.check_coil, StateId.small_heat, Trigger.onEvent Event.COIL_NOT_READY, Option.none⟩,
    ⟨StateId.small_heat, StateId.check_coil, Trigger.timedMs 6000, Option.none⟩,
    ⟨StateId.check_coil, StateId.check_primed, Trigger.onEvent Event.COIL_READY, some Beep.good⟩,
    ⟨StateId.check_primed, StateId.pump, Trigger.onEvent Event.COIL_NOT_PRIMED, some Beep.good⟩,
    ⟨StateId.pump, StateId.check_primed, Trigger.timedMs 2000, Option.none⟩,
    ⟨StateId.check_primed, StateId.wait, Trigger.onEvent Event.COIL_PRIMED, some Beep.good⟩ ]

/-- The integer inputs of one control cycle: the two rounded temperatures, the
dial setpoint and the fixed coil setpoint (90 in the sketch). -/
structure Inputs where
  poolTemp : Int
  poolSet : Int
  coilTemp : Int
  coilSet : Int
  deriving DecidableEq, Repr

/-- Entry callback of check_pool_state: trigger POOL_HEATED when
poolTemp >= poolSet, else POOL_NOT_HEATED. -/
def check_pool_temp (i : Inputs) : Event :=
  if i.poolTemp ≥ i.poolSet then Event.POOL_HEATED else Event.POOL_NOT_HEATED

/-- Entry callback of check_coil_state: trigger COIL_READY when
coilTemp >= coilSet, else COIL_NOT_READY. -/
def check_coil_temp (i : Inputs) : Event :=
  if i.coilTemp ≥ i.coilSet then Event.COIL_READY else Event.COIL_NOT_READY

/-- Entry callback of check_primed_state: trigger COIL_PRIMED when
coilTemp <= poolTemp + 2, else COIL_NOT_PRIMED. -/
def check_coil_primed (i : Inputs) : Event :=
  if i.coilTemp ≤ i.poolTemp + 2 then Event.COIL_PRIMED else Event.COIL_NOT_PRIMED

/-- The mutable program state touched by the machine: the current FSM state,
the global statusBuffer, the ledState and pumpState globals, the elapsed time
in the current state in milliseconds, and the Fsm library's one-shot
initialization flag. -/
structure Mach where
  current : StateId
  statusBuffer : String
  ledState : Bool
  pumpState : Bool
  elapsed : Nat
  inited : Bool
  deriving DecidableEq, Repr

/-- The program state right after setup(): initial FSM state check_pool, the
zero-initialized (empty) status buffer, LED and pump LOW, machine not yet run
once. -/
def initMach : Mach :=
  ⟨StateId.check_pool, "", false, false, 0, false⟩

/-- The non-event side effects of each state's entry callback:
enter_wait_state and enter_heat_state write the status label, and
enter_pump_state writes the label and sets ledState and pumpState HIGH.  The
decision states' entry callbacks only trigger events (modelled by
raisedEvent). -/
def applyOnEnter : StateId → Mach → Mach
  | StateId.wait, m => { m with statusBuffer := "WAIT..." }
  | StateId.heat, m => { m with statusBuffer := "HEAT..." }
  | StateId.small_heat, m => { m with statusBuffer := "HEAT..." }
  | StateId.pump, m => { m with statusBuffer := "PUMP...", ledState := true, pumpState := true }
  | _, m => m

/-- The exit callbacks: only pump_state has one (exit_pump_state), which sets
ledState and pumpState LOW. -/
def applyOnExit : StateId → Mach → Mach
  | StateId.pump, m => { m with ledState := false, pumpState := false }
  | _, m => m

/-- The event a state's entry callback triggers from the current inputs:
the three decision states always trigger exactly one event, the four dwell
states none. -/
def raisedEvent (s : StateId) (i : Inputs) : Option Event :=
  match s with
  | StateId.check_pool => some (check_pool_temp i)
  | StateId.check_coil => some (check_coil_temp i)
  | StateId.check_primed => some (check_coil_primed i)
  | _ => Option.none

/-- Modelled from the spec: the Fsm library's lookup of the event-triggered
transition registered for a given state and event (first match in
registration order). -/
def eventTrans (s : StateId) (e : Event) : Option Transition :=
  transitions.find? fun t => t.fromState == s && t.trig == Trigger.onEvent e

/-- Modelled from the spec: the Fsm library's lookup of the timed transition
registered for a given state (first match in registration order). -/
def timedTrans (s : StateId) : Option Transition :=
  transitions.find? fun t => t.fromState == s && t.trig.isTimed

/-- Modelled from the spec: firing one transition runs the old state's exit
callback, moves to the target state resetting its time-in-state to zero, runs
the target's entry side effects, and reports the transition's beep callback. -/
def fireTrans (t : Transition) (m : Mach) : Mach × Option Beep :=
  let m1 := applyOnExit m.current m
  let m2 := applyOnEnter t.toState { m1 with current := t.toState, elapsed := 0 }
  (m2, t.onFire)

/-- Modelled from the spec: one synchronous event step.  If the current
state's entry callback triggers an event and a matching event transition is
registered, that transition fires; a triggered event with no matching
transition is discarded. -/
def stepEvent (i : Inputs) (m : Mach) : Option (Mach × Option Beep) :=
  match raisedEvent m.current i with
  | Option.none => Option.none
  | some e =>
    match eventTrans m.current e with
    | Option.none => Option.none
    | some t => some (fireTrans t m)

/-- Modelled from the spec: chasing the chain of synchronously triggered
transitions (a decision state entered by a transition immediately triggers the
next transition from within its entry callback).  The chain is fuelled; with
this transition table no chain is longer than three steps, so the fuel of four
used below never cuts a chain short. -/
def settle : Nat → Inputs → Mach → Mach × List Beep
  | 0, _, m => (m, [])
  | fuel + 1, i, m =>
    match stepEvent i m with
    | Option.none => (m, [])
    | some (m1, b) =>
      let r := settle fuel i m1
      (r.1, b.toList ++ r.2)

/-- Modelled from the spec: the per-cycle timed-transition check.  Elapsed
time in the current state grows by dt this cycle; if a timed transition is
registered for the current state and its interval has elapsed, it fires and
the chain of synchronously triggered transitions settles. -/
def tick (dt : Nat) (i : Inputs) (m : Mach) : Mach × List Beep :=
  let m2 : Mach := { m with elapsed := m.elapsed + dt }
  match timedTrans m2.current with
  | Option.none => (m2, [])
  | some t =>
    match t.trig with
    | Trigger.onEvent _ => (m2, [])
    | Trigger.timedMs ms =>
      if ms ≤ m2.elapsed then
        let r1 := fireTrans t m2
        let r2 := settle 4 i r1.1
        (r2.1, r1.2.toList ++ r2.2)
      else (m2, [])

/-- Modelled from the spec: one call of the Fsm library's run_machine, the
last statement of loop().  On the first call it runs the initial state's
entry callback (which chains through the decision states); on every later
call it checks the timed transition of the current state.  Returns the new
program state and the beep callbacks fired this cycle, in order. -/
def run_machine (dt : Nat) (i : Inputs) (m : Mach) : Mach × List Beep :=
  if m.inited then
    tick dt i m
  else
    settle 4 i (applyOnEnter m.current { m with inited := true })

/-- The program states reachable by the control loop: the state right after
setup(), and every state obtained from a reachable one by one loop iteration
with arbitrary inputs and arbitrary elapsed time. -/
inductive Reachable : Mach → Prop where
  | boot : Reachable initMach
  | step (m : Mach) (i : Inputs) (dt : Nat) :
      Reachable m → Reachable (run_machine dt i m).1

/-- Modelled from the spec: the Arduino map() routine used for the dial, long
integer arithmetic with C truncating division. -/
def arduinoMap (x inLo inHi outLo outHi : Int) : Int :=
  Int.tdiv ((x - inLo) * (outHi - outLo)) (inHi - inLo) + outLo

/-- The pool setpoint computed each cycle in loop():
map(analogRead(POT_PIN), 1023, 0, 50, 90). -/
def poolSetFromRaw (raw : Int) : Int :=
  arduinoMap raw 1023 0 50 90

/-- Truncation toward zero of a rational, the C conversion from double to
int. -/
def ratTrunc (q : ℚ) : ℤ :=
  if 0 ≤ q then ⌊q⌋ else ⌈q⌉

/-- The integer temperature computed in loop() from a sensor reading r:
the int conversion of r + 0.5. -/
def sensorToInt (r : ℚ) : ℤ :=
  ratTrunc (r + 1 / 2)

/-- The three status labels the entry callbacks ever copy into
statusBuffer. -/
def statusLabels : List String :=
  ["WAIT...", "HEAT...", "PUMP..."]

/-- The three decision states, whose entry callbacks trigger an event and
touch nothing else. -/
def decisionStates : List StateId :=
  [StateId.check_pool, StateId.check_coil, StateId.check_primed]

/-- The four dwell states, which leave only via a timed transition. -/
def dwellStates : List StateId :=
  [StateId.wait, StateId.heat, StateId.small_heat, StateId.pump]

/-- The configurations the control loop can rest in between cycles: the
boot configuration, and one configuration per dwell state.  Elapsed time and
the initialization flag are unconstrained. -/
def Inv (m : Mach) : Prop :=
  (m.current = StateId.check_pool ∧ m.statusBuffer = "" ∧
    m.ledState = false ∧ m.pumpState = false) ∨
  (m.current = StateId.wait ∧ m.statusBuffer = "WAIT..." ∧
    m.ledState = false ∧ m.pumpState = false) ∨
  (m.current = StateId.heat ∧ m.statusBuffer = "HEAT..." ∧
    m.ledState = false ∧ m.pumpState = false) ∨
  (m.current = StateId.small_heat ∧ m.statusBuffer = "HEAT..." ∧
    m.ledState = false ∧ m.pumpState = false) ∨
  (m.current = StateId.pump ∧ m.statusBuffer = "PUMP..." ∧
    m.ledState = true ∧ m.pumpState = true)

theorem timedTrans_check_pool : timedTrans StateId.check_pool = Option.none := by decide

theorem timedTrans_check_coil : timedTrans StateId.check_coil = Option.none := by decide

theorem timedTrans_check_primed : timedTrans StateId.check_primed = Option.none := by decide

theorem timedTrans_wait :
    timedTrans StateId.wait =
      some ⟨StateId.wait, StateId.check_pool, Trigger.timedMs 6000, Option.none⟩ := by decide

theorem timedTrans_heat :
    timedTrans StateId.heat =
      some ⟨StateId.heat, StateId.check_coil, Trigger.timedMs 12000, some Beep.good⟩ := by decide

theorem timedTrans_small_heat :
    timedTrans StateId.small_heat =
      some ⟨StateId.small_heat, StateId.check_coil, Trigger.timedMs 6000, Option.none⟩ := by decide

theorem timedTrans_pump :
    timedTrans StateId.pump =
      some ⟨StateId.pump, StateId.check_primed, Trigger.timedMs 2000, Option.none⟩ := by decide

theorem eventTrans_pool_heated :
    eventTrans StateId.check_pool Event.POOL_HEATED =
      some ⟨StateId.check_pool, StateId.wait, Trigger.onEvent Event.POOL_HEATED,
        some Beep.good⟩ := by decide

theorem eventTrans_pool_not_heated :
    eventTrans StateId.check_pool Event.POOL_NOT_HEATED =
      some ⟨StateId.check_pool, StateId.heat, Trigger.onEvent Event.POOL_NOT_HEATED,
        some Beep.good⟩ := by decide

theorem eventTrans_coil_not_ready :
    eventTrans StateId.check_coil Event.COIL_NOT_READY =
      some ⟨StateId.check_coil, StateId.small_heat, Trigger.onEvent Event.COIL_NOT_READY,
        Option.none⟩ := by decide

theorem eventTrans_coil_ready :
    eventTrans StateId.check_coil Event.COIL_READY =
      some ⟨StateId.check_coil, StateId.check_primed, Trigger.onEvent Event.COIL_READY,
        some Beep.good⟩ := by decide

theorem eventTrans_coil_not_primed :
    eventTrans StateId.check_primed Event.COIL_NOT_PRIMED =
      some ⟨StateId.check_primed, StateId.pump, Trigger.onEvent Event.COIL_NOT_PRIMED,
        some Beep.good⟩ := by decide

theorem eventTrans_coil_primed :
    eventTrans StateId.check_primed Event.COIL_PRIMED =
      some ⟨StateId.check_primed, StateId.wait, Trigger.onEvent Event.COIL_PRIMED,
        some Beep.good⟩ := by decide

theorem stepEvent_dwell (i : Inputs) (m : Mach)
    (h : raisedEvent m.current i = Option.none) :
    stepEvent i m = Option.none := by
  simp [stepEvent, h]

theorem stepEvent_pool_heated (i : Inputs) (m : Mach)
    (hc : m.current = StateId.check_pool) (h : i.poolSet ≤ i.poolTemp) :
    stepEvent i m =
      some ({ m with current := StateId.wait, statusBuffer := "WAIT...", elapsed := 0 },
        some Beep.good) := by
  simp [stepEvent, raisedEvent, hc, check_pool_temp, ge_iff_le, h,
    eventTrans_pool_heated, fireTrans, applyOnExit, applyOnEnter]

theorem stepEvent_pool_not_heated (i : Inputs) (m : Mach)
    (hc : m.current = StateId.check_pool) (h : i.poolTemp < i.poolSet) :
    stepEvent i m =
      some ({ m with current := StateId.heat, statusBuffer := "HEAT...", elapsed := 0 },
        some Beep.good) := by
  simp [stepEvent, raisedEvent, hc, check_pool_temp, ge_iff_le, not_le.mpr h,
    eventTrans_pool_not_heated, fireTrans, applyOnExit, applyOnEnter]

theorem stepEvent_coil_ready (i : Inputs) (m : Mach)
    (hc : m.current = StateId.check_coil) (h : i.coilSet ≤ i.coilTemp) :
    stepEvent i m =
      some ({ m with current := StateId.check_primed, elapsed := 0 }, some Beep.good) := by
  simp [stepEvent, raisedEvent, hc, check_coil_temp, ge_iff_le, h,
    eventTrans_coil_ready, fireTrans, applyOnExit, applyOnEnter]

theorem stepEvent_coil_not_ready (i : Inputs) (m : Mach)
    (hc : m.current = StateId.check_coil) (h : i.coilTemp < i.coilSet) :
    stepEvent i m =
      some ({ m with current := StateId.small_heat, statusBuffer := "HEAT...", elapsed := 0 },
        Option.none) := by
  simp [stepEvent, raisedEvent, hc, check_coil_temp, ge_iff_le, not_le.mpr h,
    eventTrans_coil_not_ready, fireTrans, applyOnExit, applyOnEnter]

theorem stepEvent_coil_primed (i : Inputs) (m : Mach)
    (hc : m.current = StateId.check_primed) (h : i.coilTemp ≤ i.poolTemp + 2) :
    stepEvent i m =
      some ({ m with current := StateId.wait, statusBuffer := "WAIT...", elapsed := 0 },
        some Beep.good) := by
  simp [stepEvent, raisedEvent, hc, check_coil_primed, h,
    eventTrans_coil_primed, fireTrans, applyOnExit, applyOnEnter]

theorem stepEvent_coil_not_primed (i : Inputs) (m : Mach)
    (hc : m.current = StateId.check_primed) (h : i.poolTemp + 2 < i.coilTemp) :
    stepEvent i m =
      some ({ m with current := StateId.pump, statusBuffer := "PUMP...",
                     ledState := true, pumpState := true, elapsed := 0 },
        some Beep.good) := by
  simp [stepEvent, raisedEvent, hc, check_coil_primed, not_le.mpr h,
    eventTrans_coil_not_primed, fireTrans, applyOnExit, applyOnEnter]

theorem settle_of_none (n : Nat) (i : Inputs) (m : Mach)
    (h : stepEvent i m = Option.none) :
    settle n i m = (m, []) := by
  cases n <;> simp [settle, h]

theorem settle_of_some (n : Nat) (i : Inputs) (m m1 : Mach) (b : Option Beep)
    (h : stepEvent i m = some (m1, b)) :
    settle (n + 1) i m = ((settle n i m1).1, b.toList ++ (settle n i m1).2) := by
  simp [settle, h]

theorem settle4_check_pool (i : Inputs) (m : Mach) (hc : m.current = StateId.check_pool) :
    settle 4 i m =
      if i.poolSet ≤ i.poolTemp then
        ({ m with current := StateId.wait, statusBuffer := "WAIT...", elapsed := 0 }, [Beep.good])
      else
        ({ m with current := StateId.heat, statusBuffer := "HEAT...", elapsed := 0 },
          [Beep.good]) := by
  by_cases h : i.poolSet ≤ i.poolTemp
  · rw [if_pos h, show (4 : Nat) = 3 + 1 from rfl,
      settle_of_some 3 i m _ _ (stepEvent_pool_heated i m hc h)]
    simp [settle_of_none, stepEvent, raisedEvent]
  · rw [if_neg h, show (4 : Nat) = 3 + 1 from rfl,
      settle_of_some 3 i m _ _ (stepEvent_pool_not_heated i m hc (not_le.mp h))]
    simp [settle_of_none, stepEvent, raisedEvent]

theorem settle4_check_primed (i : Inputs) (m : Mach)
    (hc : m.current = StateId.check_primed) :
    settle 4 i m =
      if i.coilTemp ≤ i.poolTemp + 2 then
        ({ m with current := StateId.wait, statusBuffer := "WAIT...", elapsed := 0 }, [Beep.good])
      else
        ({ m with current := StateId.pump, statusBuffer := "PUMP...",
                  ledState := true, pumpState := true, elapsed := 0 }, [Beep.good]) := by
  by_cases h : i.coilTemp ≤ i.poolTemp + 2
  · rw [if_pos h, show (4 : Nat) = 3 + 1 from rfl,
      settle_of_some 3 i m _ _ (stepEvent_coil_primed i m hc h)]
    simp [settle_of_none, stepEvent, raisedEvent]
  · rw [if_neg h, show (4 : Nat) = 3 + 1 from rfl,
      settle_of_some 3 i m _ _ (stepEvent_coil_not_primed i m hc (not_le.mp h))]
    simp [settle_of_none, stepEvent, raisedEvent]

theorem settle4_check_coil (i : Inputs) (m : Mach) (hc : m.current = StateId.check_coil) :
    settle 4 i m =
      if i.coilSet ≤ i.coilTemp then
        (if i.coilTemp ≤ i.poolTemp + 2 then
          ({ m with current := StateId.wait, statusBuffer := "WAIT...", elapsed := 0 },
            [Beep.good, Beep.good])
        else
          ({ m with current := StateId.pump, statusBuffer := "PUMP...",
                    ledState := true, pumpState := true, elapsed := 0 },
            [Beep.good, Beep.good]))
      else
        ({ m with current := StateId.small_heat, statusBuffer := "HEAT...", elapsed := 0 },
          []) := by
  by_cases h : i.coilSet ≤ i.coilTemp
  · rw [if_pos h, show (4 : Nat) = 3 + 1 from rfl,
      settle_of_some 3 i m _ _ (stepEvent_coil_ready i m hc h), show (3 : Nat) = 2 + 1 from rfl]
    by_cases h2 : i.coilTemp ≤ i.poolTemp + 2
    · rw [if_pos h2, settle_of_some 2 i _ _ _ (stepEvent_coil_primed i _ rfl h2)]
      simp [settle_of_none, stepEvent, raisedEvent]
    · rw [if_neg h2, settle_of_some 2 i _ _ _ (stepEvent_coil_not_primed i _ rfl (not_le.mp h2))]
      simp [settle_of_none, stepEvent, raisedEvent]
  · rw [if_neg h, show (4 : Nat) = 3 + 1 from rfl,
      settle_of_some 3 i m _ _ (stepEvent_coil_not_ready i m hc (not_le.mp h))]
    simp [settle_of_none, stepEvent, raisedEvent]

theorem settle4_dwell (i : Inputs) (m : Mach) (h : raisedEvent m.current i = Option.none) :
    settle 4 i m = (m, []) :=
  settle_of_none 4 i m (stepEvent_dwell i m h)

theorem inv_step (m : Mach) (hm : Inv m) (i : Inputs) (dt : Nat) :
    Inv (run_machine dt i m).1 ∧ Beep.bad ∉ (run_machine dt i m).2 := by
  rcases hm with ⟨hc, hb, hl, hp⟩ | ⟨hc, hb, hl, hp⟩ | ⟨hc, hb, hl, hp⟩ |
    ⟨hc, hb, hl, hp⟩ | ⟨hc, hb, hl, hp⟩ <;>
  cases hini : m.inited <;>
  simp [run_machine, tick, hini, hc, hb, hl, hp, applyOnEnter, applyOnExit, fireTrans,
    timedTrans_check_pool, timedTrans_wait, timedTrans_heat, timedTrans_small_heat,
    timedTrans_pump, settle4_check_pool, settle4_check_primed, settle4_check_coil,
    settle4_dwell, raisedEvent, Inv] <;>
  (try split_ifs) <;>
  simp_all [Inv]

theorem reachable_inv (m : Mach) (h : Reachable m) : Inv m := by
  induction h with
  | boot => exact Or.inl ⟨rfl, rfl, rfl, rfl⟩
  | step m i dt _ ih => exact (inv_step m ih i dt).1

theorem reachable_no_bad (m : Mach) (h : Reachable m) (i : Inputs) (dt : Nat) :
    Beep.bad ∉ (run_machine dt i m).2 :=
  (inv_step m (reachable_inv m h) i dt).2

/-- C1: pump and LED outputs are set high by the Pump entry action, low by its
exit action, no other entry or exit action writes the pump output, and in
every reachable program state the pump output is high exactly when the current
state is Pump. -/
theorem pump_output_iff_in_pump :
    (∀ m : Mach, (applyOnEnter StateId.pump m).pumpState = true ∧
      (applyOnEnter StateId.pump m).ledState = true) ∧
    (∀ m : Mach, (applyOnExit StateId.pump m).pumpState = false ∧
      (applyOnExit StateId.pump m).ledState = false) ∧
    (∀ s : StateId, ∀ m : Mach, s ≠ StateId.pump →
      (applyOnEnter s m).pumpState = m.pumpState ∧
      (applyOnExit s m).pumpState = m.pumpState) ∧
    (∀ m : Mach, Reachable m → (m.pumpState = true ↔ m.current = StateId.pump)) := by
  refine ⟨fun m => ⟨rfl, rfl⟩, fun m => ⟨rfl, rfl⟩, ?_, ?_⟩
  · intro s m hs
    cases s <;> simp_all [applyOnEnter, applyOnExit]
  · intro m h
    rcases reachable_inv m h with ⟨hc, _, _, hp⟩ | ⟨hc, _, _, hp⟩ | ⟨hc, _, _, hp⟩ |
      ⟨hc, _, _, hp⟩ | ⟨hc, _, _, hp⟩ <;> simp [hc, hp]

theorem pump_output_iff_in_pump_witness :
    ((applyOnEnter StateId.wait initMach).pumpState = initMach.pumpState) ∧
    (initMach.pumpState = true ↔ initMach.current = StateId.pump) :=
  ⟨(pump_output_iff_in_pump.2.2.1 StateId.wait initMach (by decide)).1,
   pump_output_iff_in_pump.2.2.2 initMach Reachable.boot⟩

/-- C2: check_coil_primed raises COIL_PRIMED exactly when
coilTemp <= poolTemp + 2 and COIL_NOT_PRIMED otherwise; in CheckPrimed the
COIL_NOT_PRIMED event fires the transition to Pump with the success beep, and
COIL_PRIMED fires the transition to Wait with the success beep. -/
theorem check_primed_behavior :
    (∀ i : Inputs, (check_coil_primed i = Event.COIL_PRIMED ↔ i.coilTemp ≤ i.poolTemp + 2) ∧
      (check_coil_primed i = Event.COIL_NOT_PRIMED ↔ ¬ i.coilTemp ≤ i.poolTemp + 2)) ∧
    (∀ i : Inputs, ∀ m : Mach, m.current = StateId.check_primed →
      i.poolTemp + 2 < i.coilTemp →
      ∃ m2 : Mach, stepEvent i m = some (m2, some Beep.good) ∧
        m2.current = StateId.pump) ∧
    (∀ i : Inputs, ∀ m : Mach, m.current = StateId.check_primed →
      i.coilTemp ≤ i.poolTemp + 2 →
      ∃ m2 : Mach, stepEvent i m = some (m2, some Beep.good) ∧
        m2.current = StateId.wait) ∧
    beepNotif Beep.good = Notif.success := by
  refine ⟨?_, ?_, ?_, rfl⟩
  · intro i
    by_cases h : i.coilTemp ≤ i.poolTemp + 2 <;> simp [check_coil_primed, h]
  · intro i m hc h
    exact ⟨_, stepEvent_coil_not_primed i m hc h, rfl⟩
  · intro i m hc h
    exact ⟨_, stepEvent_coil_primed i m hc h, rfl⟩

theorem check_primed_behavior_witness :
    (check_coil_primed ⟨70, 80, 71, 90⟩ = Event.COIL_PRIMED ↔ (71 : Int) ≤ 70 + 2) ∧
    (∃ m2 : Mach,
      stepEvent ⟨70, 80, 95, 90⟩ ⟨StateId.check_primed, "", false, false, 0, true⟩ =
        some (m2, some Beep.good) ∧ m2.current = StateId.pump) ∧
    (∃ m2 : Mach,
      stepEvent ⟨70, 80, 71, 90⟩ ⟨StateId.check_primed, "", false, false, 0, true⟩ =
        some (m2, some Beep.good) ∧ m2.current = StateId.wait) :=
  ⟨(check_primed_behavior.1 ⟨70, 80, 71, 90⟩).1,
   check_primed_behavior.2.1 ⟨70, 80, 95, 90⟩ _ rfl (by decide),
   check_primed_behavior.2.2.1 ⟨70, 80, 71, 90⟩ _ rfl (by decide)⟩

/-- C3: check_pool_temp raises POOL_HEATED exactly when poolTemp >= poolSet
and POOL_NOT_HEATED otherwise; in CheckPool the POOL_HEATED event fires the
transition to Wait with the success beep, and POOL_NOT_HEATED fires the
transition to Heat with the success beep and the status label HEAT... . -/
theorem check_pool_behavior :
    (∀ i : Inputs, (check_pool_temp i = Event.POOL_HEATED ↔ i.poolTemp ≥ i.poolSet) ∧
      (check_pool_temp i = Event.POOL_NOT_HEATED ↔ ¬ i.poolTemp ≥ i.poolSet)) ∧
    (∀ i : Inputs, ∀ m : Mach, m.current = StateId.check_pool → i.poolSet ≤ i.poolTemp →
      ∃ m2 : Mach, stepEvent i m = some (m2, some Beep.good) ∧
        m2.current = StateId.wait) ∧
    (∀ i : Inputs, ∀ m : Mach, m.current = StateId.check_pool → i.poolTemp < i.poolSet →
      ∃ m2 : Mach, stepEvent i m = some (m2, some Beep.good) ∧
        m2.current = StateId.heat ∧ m2.statusBuffer = "HEAT...") ∧
    beepNotif Beep.good = Notif.success := by
  refine ⟨?_, ?_, ?_, rfl⟩
  · intro i
    by_cases h : i.poolTemp ≥ i.poolSet <;> simp [check_pool_temp, h]
  · intro i m hc h
    exact ⟨_, stepEvent_pool_heated i m hc h, rfl⟩
  · intro i m hc h
    exact ⟨_, stepEvent_pool_not_heated i m hc h, rfl, rfl⟩

theorem check_pool_behavior_witness :
    (check_pool_temp ⟨70, 80, 0, 90⟩ = Event.POOL_NOT_HEATED ↔ ¬ (70 : Int) ≥ 80) ∧
    (∃ m2 : Mach,
      stepEvent ⟨70, 80, 0, 90⟩ ⟨StateId.check_pool, "", false, false, 0, true⟩ =
        some (m2, some Beep.good) ∧ m2.current = StateId.heat ∧
        m2.statusBuffer = "HEAT...") ∧
    (∃ m2 : Mach,
      stepEvent ⟨85, 80, 0, 90⟩ ⟨StateId.check_pool, "", false, false, 0, true⟩ =
        some (m2, some Beep.good) ∧ m2.current = StateId.wait) :=
  ⟨(check_pool_behavior.1 ⟨70, 80, 0, 90⟩).2,
   check_pool_behavior.2.2.1 ⟨70, 80, 0, 90⟩ _ rfl (by decide),
   check_pool_behavior.2.1 ⟨85, 80, 0, 90⟩ _ rfl (by decide)⟩

/-- C4: check_coil_temp raises COIL_READY exactly when coilTemp >= coilSet and
COIL_NOT_READY otherwise; in CheckCoil the COIL_READY event fires the
transition to CheckPrimed with the success beep, and COIL_NOT_READY fires the
transition to SmallHeat with no beep callback. -/
theorem check_coil_behavior :
    (∀ i : Inputs, (check_coil_temp i = Event.COIL_READY ↔ i.coilTemp ≥ i.coilSet) ∧
      (check_coil_temp i = Event.COIL_NOT_READY ↔ ¬ i.coilTemp ≥ i.coilSet)) ∧
    (∀ i : Inputs, ∀ m : Mach, m.current = StateId.check_coil → i.coilSet ≤ i.coilTemp →
      ∃ m2 : Mach, stepEvent i m = some (m2, some Beep.good) ∧
        m2.current = StateId.check_primed) ∧
    (∀ i : Inputs, ∀ m : Mach, m.current = StateId.check_coil → i.coilTemp < i.coilSet →
      ∃ m2 : Mach, stepEvent i m = some (m2, Option.none) ∧
        m2.current = StateId.small_heat) ∧
    beepNotif Beep.good = Notif.success := by
  refine ⟨?_, ?_, ?_, rfl⟩
  · intro i
    by_cases h : i.coilTemp ≥ i.coilSet <;> simp [check_coil_temp, h]
  · intro i m hc h
    exact ⟨_, stepEvent_coil_ready i m hc h, rfl⟩
  · intro i m hc h
    exact ⟨_, stepEvent_coil_not_ready i m hc h, rfl⟩

theorem check_coil_behavior_witness :
    (check_coil_temp ⟨70, 80, 95, 90⟩ = Event.COIL_READY ↔ (95 : Int) ≥ 90) ∧
    (∃ m2 : Mach,
      stepEvent ⟨70, 80, 95, 90⟩ ⟨StateId.check_coil, "", false, false, 0, true⟩ =
        some (m2, some Beep.good) ∧ m2.current = StateId.check_primed) ∧
    (∃ m2 : Mach,
      stepEvent ⟨70, 80, 50, 90⟩ ⟨StateId.check_coil, "", false, false, 0, true⟩ =
        some (m2, Option.none) ∧ m2.current = StateId.small_heat) :=
  ⟨(check_coil_behavior.1 ⟨70, 80, 95, 90⟩).1,
   check_coil_behavior.2.1 ⟨70, 80, 95, 90⟩ _ rfl (by decide),
   check_coil_behavior.2.2.1 ⟨70, 80, 50, 90⟩ _ rfl (by decide)⟩

/-- C5: each dwell state has exactly one registered outgoing transition, and
it is timed: Wait to CheckPool with no beep, Heat to CheckCoil with the
success beep, SmallHeat to CheckCoil with no beep, Pump to CheckPrimed with no
beep. -/
theorem dwell_timed_transitions :
    transitions.filter (fun t => t.fromState == StateId.wait) =
      [⟨StateId.wait, StateId.check_pool, Trigger.timedMs 6000, Option.none⟩] ∧
    transitions.filter (fun t => t.fromState == StateId.heat) =
      [⟨StateId.heat, StateId.check_coil, Trigger.timedMs 12000, some Beep.good⟩] ∧
    transitions.filter (fun t => t.fromState == StateId.small_heat) =
      [⟨StateId.small_heat, StateId.check_coil, Trigger.timedMs 6000, Option.none⟩] ∧
    transitions.filter (fun t => t.fromState == StateId.pump) =
      [⟨StateId.pump, StateId.check_primed, Trigger.timedMs 2000, Option.none⟩] ∧
    beepNotif Beep.good = Notif.success := by
  decide

/-- C6: the bad-beep (failure) callback is attached to no registered
transition, and from any reachable program state every notification a cycle
produces is the success notification. -/
theorem failure_never_raised :
    (∀ t : Transition, t ∈ transitions → t.onFire ≠ some Beep.bad) ∧
    (∀ m : Mach, Reachable m → ∀ i : Inputs, ∀ dt : Nat, ∀ n : Notif,
      n ∈ (run_machine dt i m).2.map beepNotif → n = Notif.success) := by
  constructor
  · decide
  · intro m h i dt n hn
    rcases List.mem_map.mp hn with ⟨b, hb, rfl⟩
    cases b
    · rfl
    · exact absurd hb (reachable_no_bad m h i dt)

theorem failure_never_raised_witness :
    ((⟨StateId.check_pool, StateId.wait, Trigger.onEvent Event.POOL_HEATED,
        some Beep.good⟩ : Transition).onFire ≠ some Beep.bad) ∧
    Notif.success = Notif.success :=
  ⟨failure_never_raised.1 _ (by decide),
   failure_never_raised.2 initMach Reachable.boot ⟨70, 80, 90, 90⟩ 0 Notif.success
     (by decide)⟩

/-- C7 counterexample: the state check_pool has two event-triggered
transitions registered (POOL_HEATED to Wait and POOL_NOT_HEATED to Heat), so
the claim that every state has at most one event-triggered transition
fails. -/
theorem per_state_single_event_counterexample :
    ¬ (transitions.filter
        (fun t => t.fromState == StateId.check_pool && t.trig.isEventDriven)).length ≤ 1 := by
  decide

/-- C7 amended: for every state at most one timed transition is registered,
and for every state and event at most one event-triggered transition for that
event is registered. -/
theorem per_state_single_trigger_amended :
    (∀ s : StateId,
      (transitions.filter (fun t => t.fromState == s && t.trig.isTimed)).length ≤ 1) ∧
    (∀ s : StateId, ∀ e : Event,
      (transitions.filter
        (fun t => t.fromState == s && t.trig == Trigger.onEvent e)).length ≤ 1) := by
  decide

set_option maxRecDepth 4096 in
/-- C8: for every raw dial value 0..1023 the setpoint
map(raw, 1023, 0, 50, 90) lies in the closed range 50..90, with the raw-high
extreme 1023 giving 50 and the raw-low extreme 0 giving 90. -/
theorem pool_setpoint_range :
    (∀ r : Fin 1024, 50 ≤ poolSetFromRaw r.1 ∧ poolSetFromRaw r.1 ≤ 90) ∧
    poolSetFromRaw 1023 = 50 ∧ poolSetFromRaw 0 = 90 := by
  decide

/-- C9: at the negative reading r = -7/5 the computed temperature, the int
conversion of r + 0.5, is 0, while the nearest integer to r is -1 and lies
strictly closer to r; truncating r + 0.5 toward zero is not nearest-integer
rounding on negative readings. -/
theorem sensor_rounding_negative_bug :
    sensorToInt (-7 / 5) = 0 ∧ round ((-7 : ℚ) / 5) = -1 ∧
    |(-7 / 5 : ℚ) - ((-1 : ℤ) : ℚ)| < |(-7 / 5 : ℚ) - ((sensorToInt (-7 / 5) : ℤ) : ℚ)| := by
  have h1 : sensorToInt (-7 / 5) = 0 := by
    rw [sensorToInt, ratTrunc]
    norm_num
  refine ⟨h1, ?_, ?_⟩
  · rw [round_eq]
    norm_num
  · rw [h1]
    have e1 : ((-7 / 5 : ℚ) - ((-1 : ℤ) : ℚ)) = -(2 / 5) := by norm_num
    have e2 : ((-7 / 5 : ℚ) - ((0 : ℤ) : ℚ)) = -(7 / 5) := by norm_num
    rw [e1, e2, abs_neg, abs_neg, abs_of_nonneg (by norm_num : (0 : ℚ) ≤ 2 / 5),
      abs_of_nonneg (by norm_num : (0 : ℚ) ≤ 7 / 5)]
    norm_num

/-- C10: the three status labels are 7 characters plus terminator and fit the
8-byte buffer; entry actions either leave the buffer alone or write one of the
labels; decision-state entry actions do not touch the program state at all;
and in every reachable program state the buffer holds at most 7 characters and
is empty only before the first dwell state was entered (current state still
check_pool). -/
theorem status_buffer_safety :
    (∀ s : String, s ∈ statusLabels → s.length + 1 ≤ 8) ∧
    initMach.statusBuffer = "" ∧
    (∀ s : StateId, s ∈ decisionStates → ∀ m : Mach, applyOnEnter s m = m) ∧
    (∀ s : StateId, ∀ m : Mach, (applyOnEnter s m).statusBuffer = m.statusBuffer ∨
      (applyOnEnter s m).statusBuffer ∈ statusLabels) ∧
    (∀ m : Mach, Reachable m → m.statusBuffer.length ≤ 7 ∧
      (m.statusBuffer = "" → m.current = StateId.check_pool)) := by
  refine ⟨by decide, rfl, ?_, ?_, ?_⟩
  · intro s hs m
    simp only [decisionStates, List.mem_cons, List.mem_singleton] at hs
    rcases hs with rfl | rfl | rfl | hs
    · rfl
    · rfl
    · rfl
    · exact absurd hs (by simp)
  · intro s m
    cases s <;> simp [applyOnEnter, statusLabels]
  · intro m h
    rcases reachable_inv m h with ⟨hc, hb, -, -⟩ | ⟨hc, hb, -, -⟩ | ⟨hc, hb, -, -⟩ |
      ⟨hc, hb, -, -⟩ | ⟨hc, hb, -, -⟩ <;> rw [hb] <;> refine ⟨by decide, fun h2 => ?_⟩
    · exact hc
    · exact absurd h2 (by decide)
    · exact absurd h2 (by decide)
    · exact absurd h2 (by decide)
    · exact absurd h2 (by decide)

theorem status_buffer_safety_witness :
    ("WAIT...".length + 1 ≤ 8) ∧
    (applyOnEnter StateId.check_pool initMach = initMach) ∧
    (initMach.statusBuffer.length ≤ 7) :=
  ⟨status_buffer_safety.1 "WAIT..." (by decide),
   status_buffer_safety.2.2.1 StateId.check_pool (by decide) initMach,
   (status_buffer_safety.2.2.2.2 initMach Reachable.boot).1⟩

end PoolHeater
